import Mathlib

/-!
# Verification of the acloud remote command execution and retry subsystem

Shallow embedding of `internal/lib/ssh.py` and the creator dispatch of
`create/create.py`, together with theorems settling the specification's
claims about them.

Conventions of the embedding:
* Python `None`-or-string parameters that are only tested for truthiness
  are modelled as `String`, with `""` standing for `None`.
* A spawned subprocess is modelled by a `ProcessSpec`: how long it would
  run until natural exit, and the exit code it would then return.
* Exceptions are modelled with `Except AcloudError`.
-/

/-- The exceptions of `acloud.errors` (plus `subprocess.CalledProcessError`)
that the embedded code can raise. -/
inductive AcloudError where
  | DeviceConnectionError (msg : String)
  | CalledProcessError (returncode : Int) (cmd : String)
  | UnknownType (msg : String)
  | UnsupportedInstanceImageType (msg : String)
deriving DecidableEq, Repr

/-- The spec's `FailureClass` enumeration (spec §3, §4.4):
{Success, TransportFailure, CommandFailure(code), Timeout}. -/
inductive FailureClass where
  | Success
  | TransportFailure
  | CommandFailure (code : Int)
  | Timeout
deriving DecidableEq, Repr

/-- `ssh.py` line 31: `_SSH_CMD_MAX_RETRY = 4`. -/
def _SSH_CMD_MAX_RETRY : Nat := 4

/-- `ssh.py` line 32: `_SSH_CMD_RETRY_SLEEP = 3`. -/
def _SSH_CMD_RETRY_SLEEP : Nat := 3

/-- `ssh.py` lines 28-29: the `_SSH_CMD` format string applied to its
`rsa_key_file` substitution. -/
def _SSH_CMD (rsaKeyFile : String) : String :=
  "-i " ++ rsaKeyFile ++
    " -q -o UserKnownHostsFile=/dev/null -o StrictHostKeyChecking=no"

/-- `ssh.py` line 30: the `_SSH_IDENTITY` format string applied to its
`login_user` and `ip_addr` substitutions. -/
def _SSH_IDENTITY (loginUser ipAddr : String) : String :=
  "-l " ++ loginUser ++ " " ++ ipAddr

/-- A subprocess, abstracted to the observables the code depends on:
`duration` is the wall-clock time (seconds) until it would exit on its
own, `exitCode` the return code it would then report. -/
structure ProcessSpec where
  duration : Nat
  exitCode : Int
deriving DecidableEq, Repr

/-- The outcome of one `subprocess.Popen` invocation as the code sees it:
the final `returncode` and whether the watchdog killed the process. -/
structure CommandOutcome where
  returncode : Int
  killedByTimeout : Bool
deriving DecidableEq, Repr

/-- `ssh.py` lines 83-88 and 100-102 (identically lines 48-58 in
`_SshCall`): spawn the process and, when `timeout` is truthy (Python
`if timeout:` — `None` and `0` arm no watchdog), arm a
`threading.Timer(timeout, process.kill)`.  If the process outlives the
deadline it is killed; on POSIX, `Popen.returncode` of a SIGKILLed
process is `-9`.  Otherwise the timer is cancelled and the process
reports its own exit code. -/
def runProcessOutcome (p : ProcessSpec) (timeout : Option Nat) : CommandOutcome :=
  match timeout with
  | none => { returncode := p.exitCode, killedByTimeout := false }
  | some t =>
      if t = 0 then { returncode := p.exitCode, killedByTimeout := false }
      else if t < p.duration then { returncode := -9, killedByTimeout := true }
      else { returncode := p.exitCode, killedByTimeout := false }

/-- `ssh.py` lines 103-107 of `_SshLogOutput`: interpret the final
return code.  `255` raises `errors.DeviceConnectionError`, any other
nonzero code raises `subprocess.CalledProcessError(returncode, cmd)`,
`0` returns normally. -/
def interpretReturncode (cmd : String) (returncode : Int) : Except AcloudError Unit :=
  if returncode = 255 then
    .error (.DeviceConnectionError
      ("Failed to send command to instance (" ++ cmd ++ ")"))
  else if returncode ≠ 0 then
    .error (.CalledProcessError returncode cmd)
  else
    .ok ()

/-- The same classification, expressed in the spec's `FailureClass`
vocabulary.  Lines 103-107 branch on `process.returncode` alone. -/
def classifyReturncode (returncode : Int) : FailureClass :=
  if returncode = 255 then .TransportFailure
  else if returncode ≠ 0 then .CommandFailure returncode
  else .Success

/-- Classification of a full `CommandOutcome`: the code (lines 103-107)
reads only `process.returncode`; `killedByTimeout` is never consulted. -/
def classifyOutcome (o : CommandOutcome) : FailureClass :=
  classifyReturncode o.returncode

/-- `_SshLogOutput` (`ssh.py` lines 63-107), composed from the process
model and the return-code interpretation: run the process (with optional
watchdog) and interpret its final return code.  The output-streaming
loop of lines 89-99 is modelled separately by `outputLoop`. -/
def _SshLogOutput (cmd : String) (p : ProcessSpec) (timeout : Option Nat) :
    Except AcloudError Unit :=
  interpretReturncode cmd (runProcessOutcome p timeout).returncode

/-- `_SshCall` (`ssh.py` lines 35-60): run the process (same watchdog
construction as `_SshLogOutput`) and return its raw return code. -/
def _SshCall (cmd : String) (p : ProcessSpec) (timeout : Option Nat) : Int :=
  let _ := cmd
  (runProcessOutcome p timeout).returncode

/-- `ssh.py` line 128: the retry layer retries exactly the exception
type `errors.DeviceConnectionError`. -/
def isDeviceConnectionError : AcloudError → Bool
  | .DeviceConnectionError _ => true
  | _ => false

/-- Modelled from the spec: the generic retry engine
`utils.RetryExceptionType` / `RunWithRetry` (spec §4.5) — `utils.py` is
not under `src/`.  "Invokes `operation` once; on failure ... if the
class is in `retryableClasses` and attempts remain, sleeps
`baseSleep * backoffFactor^(attempt-1)` seconds, increments the attempt
counter, and retries; otherwise propagates the failure immediately",
and (spec §8) `maxRetries = n` performs exactly `n` attempts when every
attempt fails retryably, with sleeps `sleep[k] = baseSleep *
backoffFactor^k` for `k = 0..n-2`.  `k` is the zero-based index of the
attempt just made, `fuel` the number of further attempts still allowed.
The work is a function of the attempt index because every attempt
spawns a fresh process (spec §3 invariant).  The returned list records
the sleep performed after each failed retryable attempt. -/
def RetryAux (retryable : AcloudError → Bool)
    (functor : Nat → Except AcloudError Unit)
    (sleepMultiplier backoffFactor : Nat) :
    Nat → Nat → Except AcloudError Unit × List Nat
  | k, 0 => (functor k, [])
  | k, fuel + 1 =>
      match functor k with
      | .ok u => (.ok u, [])
      | .error e =>
          if retryable e then
            let r := RetryAux retryable functor sleepMultiplier backoffFactor
                (k + 1) fuel
            (r.1, sleepMultiplier * backoffFactor ^ k :: r.2)
          else (.error e, [])

/-- Modelled from the spec: `utils.RetryExceptionType` with a total
attempt budget of `maxRetries` (spec §8: "`RunWithRetry` invoked with
`maxRetries = n` ... performs exactly `n` attempts"). -/
def RetryExceptionType (retryable : AcloudError → Bool)
    (functor : Nat → Except AcloudError Unit)
    (sleepMultiplier backoffFactor maxRetries : Nat) :
    Except AcloudError Unit × List Nat :=
  RetryAux retryable functor sleepMultiplier backoffFactor 0 (maxRetries - 1)

/-- `ShellCmdWithRetry` (`ssh.py` lines 110-135): retry `_SshLogOutput`
on `errors.DeviceConnectionError` with `max_retries=_SSH_CMD_MAX_RETRY`
and `sleep_multiplier=_SSH_CMD_RETRY_SLEEP`.  The backoff factor is
`utils.DEFAULT_RETRY_BACKOFF_FACTOR`, whose value is not under `src/`
and is not stated by the spec, so it is kept as a parameter.
`procs k` is the process spawned by the `k`-th attempt. -/
def ShellCmdWithRetry (cmd : String) (procs : Nat → ProcessSpec)
    (timeout : Option Nat) (backoffFactor : Nat) :
    Except AcloudError Unit × List Nat :=
  RetryExceptionType isDeviceConnectionError
    (fun k => _SshLogOutput cmd (procs k) timeout)
    _SSH_CMD_RETRY_SLEEP backoffFactor _SSH_CMD_MAX_RETRY

/-- The two sinks a streamed output line can be forwarded to
(`ssh.py` lines 95-99): `print` or `logger.debug`. -/
inductive Sink where
  | console
  | debugLog
deriving DecidableEq, Repr

/-- The sink selected by the `show_output` flag (lines 95-99). -/
def lineSink (showOutput : Bool) : Sink :=
  if showOutput then Sink.console else Sink.debugLog

/-- The output loop of `_SshLogOutput` (`ssh.py` lines 89-99).  Each
element of `events` is one iteration's observation: the string returned
by `process.stdout.readline()` paired with the result of
`process.poll()` at that moment (`none` while still running).  The loop
breaks when the line is empty AND the process has exited; a nonempty
line is stripped and forwarded to the sink chosen by `show_output`, and
an empty line from a still-running process is skipped.  Returns the
forwarded lines with their sinks, in order. -/
def outputLoop (showOutput : Bool) :
    List (String × Option Int) → List (Sink × String)
  | [] => []
  | (output, poll) :: rest =>
      if output == "" && poll.isSome then []
      else
        (if output == "" then [] else [(lineSink showOutput, output.trim)])
          ++ outputLoop showOutput rest


/-- Python `" ".join(l)`. -/
def pyJoin (sep : String) : List String → String
  | [] => ""
  | [x] => x
  | x :: xs => x ++ sep ++ pyJoin sep xs

/-- The `IP` class (`ssh.py` lines 138-149).  `None` is modelled as
`""`; Python `external or ip` keeps `external` when truthy, else
falls back to `ip`. -/
structure IP where
  external : String
  internal : String
deriving DecidableEq, Repr

/-- `IP.__init__` (`ssh.py` lines 140-149). -/
def IP.init (external internal ip : String) : IP :=
  { external := if external ≠ "" then external else ip
    internal := if internal ≠ "" then internal else ip }

/-- The state of an `Ssh` object (`ssh.py` lines 152-166): the four
attributes set by `__init__` and never assigned anywhere else. -/
structure SshObj where
  ip : String
  gceUser : String
  sshPrivateKeyPath : String
  extraArgsSshTunnel : String
deriving DecidableEq, Repr

/-- `Ssh.__init__` (`ssh.py` lines 161-166): the effective address is
resolved here, once, from the `report_internal_ip` flag. -/
def Ssh.init (ip : IP) (gceUser sshPrivateKeyPath extraArgsSshTunnel : String)
    (reportInternalIp : Bool) : SshObj :=
  { ip := if reportInternalIp then ip.internal else ip.external
    gceUser := gceUser
    sshPrivateKeyPath := sshPrivateKeyPath
    extraArgsSshTunnel := extraArgsSshTunnel }

/-- Modelled from the spec: `constants.SSH_BIN` (`acloud.internal.constants`
is not under `src/`); the shell-transport binary name. -/
def SSH_BIN : String := "ssh"

/-- Modelled from the spec: `constants.SCP_BIN`; the file-copy binary
name. -/
def SCP_BIN : String := "scp"

/-- `Ssh.GetBaseCmd` lines 206-209: the `base_cmd` list before the
execute-bin branch — resolved binary path, `_SSH_CMD` flags, and the
extra tunnel arguments when truthy.  `findExecutable` stands for
`distutils.spawn.find_executable` (assumed to find the binary). -/
def baseCmdList (findExecutable : String → String) (s : SshObj)
    (executeBin : String) : List String :=
  let base := [findExecutable executeBin, _SSH_CMD s.sshPrivateKeyPath]
  if s.extraArgsSshTunnel ≠ "" then base ++ [s.extraArgsSshTunnel] else base

/-- `Ssh.GetBaseCmd` (`ssh.py` lines 188-218): for `ssh` append the
`_SSH_IDENTITY` login-and-address suffix and join; for `scp` join the
base list as is; for anything else raise `errors.UnknownType`. -/
def getBaseCmd (findExecutable : String → String) (s : SshObj)
    (executeBin : String) : Except AcloudError String :=
  if executeBin = SSH_BIN then
    .ok (pyJoin " " (baseCmdList findExecutable s executeBin
      ++ [_SSH_IDENTITY s.gceUser s.ip]))
  else if executeBin = SCP_BIN then
    .ok (pyJoin " " (baseCmdList findExecutable s executeBin))
  else
    .error (.UnknownType ("Don\x27t support the execute bin " ++ executeBin ++ "."))

/-- `Ssh.Run` (`ssh.py` lines 168-186):
`ShellCmdWithRetry(self.GetBaseCmd(constants.SSH_BIN) + " " + target_command,
timeout, show_output)`. -/
def Ssh.Run (findExecutable : String → String) (s : SshObj)
    (targetCommand : String) (procs : Nat → ProcessSpec)
    (timeout : Option Nat) (backoffFactor : Nat) :
    Except AcloudError Unit × List Nat :=
  match getBaseCmd findExecutable s SSH_BIN with
  | .ok base => ShellCmdWithRetry (base ++ " " ++ targetCommand) procs timeout
      backoffFactor
  | .error e => (.error e, [])

/-- The loop of `Ssh.WaitForSsh` (`ssh.py` lines 232-236): up to `n`
further `_SshCall` probes starting at attempt index `k`; return as soon
as one exits 0, else raise `errors.DeviceConnectionError`.  The second
component counts the `_SshCall` invocations performed. -/
def waitForSshAux (cmd : String) (procs : Nat → ProcessSpec)
    (timeout : Option Nat) : Nat → Nat → Except AcloudError Unit × Nat
  | _, 0 => (.error (.DeviceConnectionError
      "Ssh isn\x27t ready in the remote instance."), 0)
  | k, n + 1 =>
      if _SshCall cmd (procs k) timeout = 0 then (.ok (), 1)
      else
        let r := waitForSshAux cmd procs timeout (k + 1) n
        (r.1, r.2 + 1)

/-- `Ssh.WaitForSsh` (`ssh.py` lines 220-236): probe
`GetBaseCmd(ssh) + " uptime"` through `_SshCall` with the same `timeout`
on every attempt, at most `max_retry` times. -/
def Ssh.WaitForSsh (findExecutable : String → String) (s : SshObj)
    (procs : Nat → ProcessSpec) (timeout : Option Nat) (maxRetry : Nat) :
    Except AcloudError Unit × Nat :=
  match getBaseCmd findExecutable s SSH_BIN with
  | .ok base => waitForSshAux (pyJoin " " [base, "uptime"]) procs timeout 0 maxRetry
  | .error e => (.error e, 0)

/-- `Ssh.ScpPushFile` (`ssh.py` lines 238-248): command list is
`[base, src_file, "user@ip:dst_file"]`, joined and run through
`ShellCmdWithRetry` with no timeout. -/
def Ssh.ScpPushFile (findExecutable : String → String) (s : SshObj)
    (srcFile dstFile : String) (procs : Nat → ProcessSpec)
    (backoffFactor : Nat) : Except AcloudError Unit × List Nat :=
  match getBaseCmd findExecutable s SCP_BIN with
  | .ok base => ShellCmdWithRetry
      (pyJoin " " [base, srcFile, s.gceUser ++ "@" ++ s.ip ++ ":" ++ dstFile])
      procs none backoffFactor
  | .error e => (.error e, [])

/-- `Ssh.ScpPullFile` (`ssh.py` lines 250-260): command list is
`[base, "user@ip:src_file", dst_file]`, joined and run through
`ShellCmdWithRetry` with no timeout. -/
def Ssh.ScpPullFile (findExecutable : String → String) (s : SshObj)
    (srcFile dstFile : String) (procs : Nat → ProcessSpec)
    (backoffFactor : Nat) : Except AcloudError Unit × List Nat :=
  match getBaseCmd findExecutable s SCP_BIN with
  | .ok base => ShellCmdWithRetry
      (pyJoin " " [base, s.gceUser ++ "@" ++ s.ip ++ ":" ++ srcFile, dstFile])
      procs none backoffFactor
  | .error e => (.error e, [])

/-- State-passing form of `Ssh.Run`: a Python method could mutate `self`
only by assigning its attributes; the body of `Run` (lines 168-186)
contains no such assignment, so the session state it leaves behind is
the one it received. -/
def Ssh.RunSt (findExecutable : String → String) (s : SshObj)
    (targetCommand : String) (procs : Nat → ProcessSpec)
    (timeout : Option Nat) (backoffFactor : Nat) :
    (Except AcloudError Unit × List Nat) × SshObj :=
  (Ssh.Run findExecutable s targetCommand procs timeout backoffFactor, s)

/-- State-passing form of `Ssh.GetBaseCmd` (lines 188-218): no attribute
assignment in the body. -/
def Ssh.GetBaseCmdSt (findExecutable : String → String) (s : SshObj)
    (executeBin : String) : Except AcloudError String × SshObj :=
  (getBaseCmd findExecutable s executeBin, s)

/-- State-passing form of `Ssh.WaitForSsh` (lines 220-236): no attribute
assignment in the body. -/
def Ssh.WaitForSshSt (findExecutable : String → String) (s : SshObj)
    (procs : Nat → ProcessSpec) (timeout : Option Nat) (maxRetry : Nat) :
    (Except AcloudError Unit × Nat) × SshObj :=
  (Ssh.WaitForSsh findExecutable s procs timeout maxRetry, s)

/-- State-passing form of `Ssh.ScpPushFile` (lines 238-248): no
attribute assignment in the body. -/
def Ssh.ScpPushFileSt (findExecutable : String → String) (s : SshObj)
    (srcFile dstFile : String) (procs : Nat → ProcessSpec)
    (backoffFactor : Nat) :
    (Except AcloudError Unit × List Nat) × SshObj :=
  (Ssh.ScpPushFile findExecutable s srcFile dstFile procs backoffFactor, s)

/-- State-passing form of `Ssh.ScpPullFile` (lines 250-260): no
attribute assignment in the body. -/
def Ssh.ScpPullFileSt (findExecutable : String → String) (s : SshObj)
    (srcFile dstFile : String) (procs : Nat → ProcessSpec)
    (backoffFactor : Nat) :
    (Except AcloudError Unit × List Nat) × SshObj :=
  (Ssh.ScpPullFile findExecutable s srcFile dstFile procs backoffFactor, s)

/-- Modelled from the spec: `constants.INSTANCE_TYPE_REMOTE`
(`acloud.internal.constants` is not under `src/`).  Only distinctness
from the local value matters to the dispatch claims. -/
def INSTANCE_TYPE_REMOTE : String := "remote"

/-- Modelled from the spec: `constants.INSTANCE_TYPE_LOCAL`. -/
def INSTANCE_TYPE_LOCAL : String := "local"

/-- Modelled from the spec: `constants.IMAGE_SRC_LOCAL`. -/
def IMAGE_SRC_LOCAL : String := "local"

/-- Modelled from the spec: `constants.IMAGE_SRC_REMOTE`. -/
def IMAGE_SRC_REMOTE : String := "remote"

/-- The four AVD creator classes imported by `create/create.py`. -/
inductive AvdCreatorClass where
  | LocalImageRemoteInstance
  | LocalImageLocalInstance
  | RemoteImageRemoteInstance
  | RemoteImageLocalInstance
deriving DecidableEq, Repr

/-- `GetAvdCreatorClass` (`create/create.py` lines 46-74): dispatch on
the (instance type, image source) pair; any unrecognized pair raises
`errors.UnsupportedInstanceImageType`. -/
def GetAvdCreatorClass (instanceType imageSource : String) :
    Except AcloudError AvdCreatorClass :=
  if instanceType = INSTANCE_TYPE_REMOTE ∧ imageSource = IMAGE_SRC_LOCAL then
    .ok .LocalImageRemoteInstance
  else if instanceType = INSTANCE_TYPE_LOCAL ∧ imageSource = IMAGE_SRC_LOCAL then
    .ok .LocalImageLocalInstance
  else if instanceType = INSTANCE_TYPE_REMOTE ∧ imageSource = IMAGE_SRC_REMOTE then
    .ok .RemoteImageRemoteInstance
  else if instanceType = INSTANCE_TYPE_LOCAL ∧ imageSource = IMAGE_SRC_REMOTE then
    .ok .RemoteImageLocalInstance
  else
    .error (.UnsupportedInstanceImageType
      ("unsupported creation of instance type: " ++ instanceType ++
        ", image source: " ++ imageSource))

/-- The loop-continuation predicate of `ssh.py` line 92, negated: the
loop keeps going unless the line is empty and `poll()` is not `None`. -/
def continueRead (e : String × Option Int) : Bool :=
  !(e.1 == "" && e.2.isSome)

/-- What one loop iteration forwards (`ssh.py` lines 94-99): nothing
for an empty line, otherwise the stripped line tagged with the sink
chosen by `show_output`. -/
def forwardLine (showOutput : Bool) (e : String × Option Int) :
    Option (Sink × String) :=
  if e.1 == "" then none else some (lineSink showOutput, e.1.trim)

/-! ## Helper lemmas -/

lemma getBaseCmd_ssh_eq (f : String → String) (s : SshObj) :
    getBaseCmd f s SSH_BIN =
      .ok (pyJoin " " (baseCmdList f s SSH_BIN
        ++ [_SSH_IDENTITY s.gceUser s.ip])) := by
  simp [getBaseCmd]

lemma getBaseCmd_scp_eq (f : String → String) (s : SshObj) :
    getBaseCmd f s SCP_BIN =
      .ok (pyJoin " " (baseCmdList f s SCP_BIN)) := by
  simp [getBaseCmd, SSH_BIN, SCP_BIN]

lemma RetryAux_nonretryable (retryable : AcloudError → Bool)
    (functor : Nat → Except AcloudError Unit) (m b k fuel : Nat)
    (e : AcloudError) (hf : functor k = .error e)
    (hr : retryable e = false) :
    RetryAux retryable functor m b k fuel = (.error e, []) := by
  cases fuel with
  | zero => simp [RetryAux, hf]
  | succ n => simp [RetryAux, hf, hr]

lemma RetryAux_all_retryable (retryable : AcloudError → Bool)
    (functor : Nat → Except AcloudError Unit) (m b : Nat) :
    ∀ (fuel k : Nat),
      (∀ j, j ≤ fuel → ∃ e, functor (k + j) = .error e ∧ retryable e = true) →
      (RetryAux retryable functor m b k fuel).1 = functor (k + fuel) ∧
      (RetryAux retryable functor m b k fuel).2.length = fuel := by
  intro fuel
  induction fuel with
  | zero => intro k _; simp [RetryAux]
  | succ n ih =>
      intro k h
      obtain ⟨e, he, hre⟩ := h 0 (Nat.zero_le _)
      simp only [Nat.add_zero] at he
      have ihk := ih (k + 1) (by
        intro j hj
        obtain ⟨e', he', hre'⟩ := h (j + 1) (by omega)
        exact ⟨e', by rw [show k + 1 + j = k + (j + 1) by omega]; exact he', hre'⟩)
      simp only [RetryAux, he, hre, if_true]
      constructor
      · rw [ihk.1]; congr 1; omega
      · simp [ihk.2]

lemma RetryAux_sleeps_shape (retryable : AcloudError → Bool)
    (functor : Nat → Except AcloudError Unit) (m b : Nat) :
    ∀ (fuel k : Nat), ∃ j, j ≤ fuel ∧
      (RetryAux retryable functor m b k fuel).2 =
        (List.range j).map (fun i => m * b ^ (k + i)) := by
  intro fuel
  induction fuel with
  | zero => intro k; exact ⟨0, Nat.le_refl 0, by simp [RetryAux]⟩
  | succ n ih =>
      intro k
      cases hf : functor k with
      | ok u => exact ⟨0, Nat.zero_le _, by simp [RetryAux, hf]⟩
      | error e =>
          cases hre : retryable e with
          | false => exact ⟨0, Nat.zero_le _, by simp [RetryAux, hf, hre]⟩
          | true =>
              obtain ⟨j, hj, hshape⟩ := ih (k + 1)
              refine ⟨j + 1, by omega, ?_⟩
              simp only [RetryAux, hf, hre, if_true]
              rw [hshape, List.range_succ_eq_map]
              have hfun : ((fun i => m * b ^ (k + i)) ∘ Nat.succ) =
                  fun i => m * b ^ (k + 1 + i) := by
                funext i
                simp only [Function.comp_apply, Nat.succ_eq_add_one]
                rw [show k + 1 + i = k + (i + 1) by omega]
              simp [List.map_map, hfun]

lemma chain_le_of_monotone_map_range (g : Nat → Nat) (hg : Monotone g)
    (j : Nat) : List.Chain' (· ≤ ·) ((List.range j).map g) := by
  apply List.Pairwise.chain'
  rw [List.pairwise_map]
  exact (List.pairwise_lt_range j).imp (fun h => hg (Nat.le_of_lt h))

lemma waitForSshAux_ok (cmd : String) (procs : Nat → ProcessSpec)
    (timeout : Option Nat) :
    ∀ (d n k : Nat), d < n →
      (∀ j, j < d → (runProcessOutcome (procs (k + j)) timeout).returncode ≠ 0) →
      (runProcessOutcome (procs (k + d)) timeout).returncode = 0 →
      waitForSshAux cmd procs timeout k n = (.ok (), d + 1) := by
  intro d
  induction d with
  | zero =>
      intro n k hn _ hsucc
      cases n with
      | zero => omega
      | succ n' =>
          simp only [Nat.add_zero] at hsucc
          simp [waitForSshAux, _SshCall, hsucc]
  | succ d' ih =>
      intro n k hn hfail hsucc
      cases n with
      | zero => omega
      | succ n' =>
          have h0 : (runProcessOutcome (procs k) timeout).returncode ≠ 0 := by
            have := hfail 0 (by omega)
            simpa using this
          have hrec := ih n' (k + 1) (by omega)
            (fun j hj => by
              have := hfail (j + 1) (by omega)
              rw [show k + 1 + j = k + (j + 1) by omega]
              exact this)
            (by
              rw [show k + 1 + d' = k + (d' + 1) by omega]
              exact hsucc)
          simp [waitForSshAux, _SshCall, h0, hrec]

lemma waitForSshAux_fail (cmd : String) (procs : Nat → ProcessSpec)
    (timeout : Option Nat) :
    ∀ (n k : Nat),
      (∀ j, j < n → (runProcessOutcome (procs (k + j)) timeout).returncode ≠ 0) →
      waitForSshAux cmd procs timeout k n =
        (.error (.DeviceConnectionError
          "Ssh isn\x27t ready in the remote instance."), n) := by
  intro n
  induction n with
  | zero => intro k _; simp [waitForSshAux]
  | succ n' ih =>
      intro k h
      have h0 : (runProcessOutcome (procs k) timeout).returncode ≠ 0 := by
        have := h 0 (by omega)
        simpa using this
      have hrec := ih (k + 1) (fun j hj => by
        have := h (j + 1) (by omega)
        rw [show k + 1 + j = k + (j + 1) by omega]
        exact this)
      simp [waitForSshAux, _SshCall, h0, hrec]

lemma pyJoin_three (a c d : String) :
    pyJoin " " [a, c, d] = a ++ " " ++ (c ++ " " ++ d) := rfl

/-! ## Claims -/

/-- C1: for every completed process outcome interpreted by
`_SshLogOutput`, exit code 0 returns normally (Success), exit code 255
raises `errors.DeviceConnectionError` (TransportFailure), and every
other nonzero code `c` raises `subprocess.CalledProcessError` carrying
`c` (CommandFailure c) — independent of the command string's content. -/
theorem exit_code_classification (cmd : String) (c : Int) :
    (c = 0 → interpretReturncode cmd c = .ok () ∧
      classifyReturncode c = .Success) ∧
    (c = 255 → interpretReturncode cmd c =
        .error (.DeviceConnectionError
          ("Failed to send command to instance (" ++ cmd ++ ")")) ∧
      classifyReturncode c = .TransportFailure) ∧
    (c ≠ 0 → c ≠ 255 →
      interpretReturncode cmd c = .error (.CalledProcessError c cmd) ∧
      classifyReturncode c = .CommandFailure c) := by
  refine ⟨?_, ?_, ?_⟩
  · rintro rfl
    simp [interpretReturncode, classifyReturncode]
  · rintro rfl
    simp [interpretReturncode, classifyReturncode]
  · intro h0 h255
    simp [interpretReturncode, classifyReturncode, h0, h255]

theorem exit_code_classification_witness :
    (interpretReturncode "echo ok" 0 = .ok () ∧
      classifyReturncode 0 = .Success) ∧
    (interpretReturncode "echo ok" 255 = .error (.DeviceConnectionError
        ("Failed to send command to instance (" ++ "echo ok" ++ ")")) ∧
      classifyReturncode 255 = .TransportFailure) ∧
    (interpretReturncode "echo ok" 7 =
        .error (.CalledProcessError 7 "echo ok") ∧
      classifyReturncode 7 = .CommandFailure 7) :=
  ⟨(exit_code_classification "echo ok" 0).1 rfl,
   (exit_code_classification "echo ok" 255).2.1 rfl,
   (exit_code_classification "echo ok" 7).2.2 (by decide) (by decide)⟩

/-- C2 counterexample: a process that outlives its 5-second deadline is
killed; the code classifies the resulting outcome by its return code
alone, yielding CommandFailure (-9) — not the claimed Timeout class —
and the retry layer does not retry it (no sleep is ever performed). -/
theorem timeout_kill_not_timeout_class_cex :
    (runProcessOutcome ⟨10, 0⟩ (some 5)).killedByTimeout = true ∧
    classifyOutcome (runProcessOutcome ⟨10, 0⟩ (some 5)) =
      .CommandFailure (-9) ∧
    classifyOutcome (runProcessOutcome ⟨10, 0⟩ (some 5)) ≠
      FailureClass.Timeout ∧
    ShellCmdWithRetry "ls" (fun _ => ⟨10, 0⟩) (some 5) 1 =
      (.error (.CalledProcessError (-9) "ls"), []) :=
  ⟨rfl, rfl, by decide, rfl⟩

/-- C2 amended: with a timeout set, a process that has not finished by
the deadline is forcibly killed, but the outcome carries the kill
signal's negative return code (`-9`) rather than a distinct
killed-by-timeout classification: `_SshLogOutput` raises
`subprocess.CalledProcessError(-9, cmd)` (CommandFailure), there is no
Timeout failure class, and the retry layer does not retry it. -/
theorem timeout_kill_classified_as_command_failure (cmd : String)
    (p : ProcessSpec) (t b : Nat) (ht : 0 < t) (hd : t < p.duration) :
    runProcessOutcome p (some t) = ⟨-9, true⟩ ∧
    _SshLogOutput cmd p (some t) = .error (.CalledProcessError (-9) cmd) ∧
    classifyOutcome (runProcessOutcome p (some t)) = .CommandFailure (-9) ∧
    ShellCmdWithRetry cmd (fun _ => p) (some t) b =
      (.error (.CalledProcessError (-9) cmd), []) := by
  have ht0 : ¬ t = 0 := by omega
  have hrun : runProcessOutcome p (some t) = ⟨-9, true⟩ := by
    simp [runProcessOutcome, ht0, hd]
  have hlog : _SshLogOutput cmd p (some t) =
      .error (.CalledProcessError (-9) cmd) := by
    simp only [_SshLogOutput, hrun]
    simp [interpretReturncode]
  refine ⟨hrun, hlog, ?_, ?_⟩
  · simp only [classifyOutcome, hrun]
    decide
  · exact RetryAux_nonretryable isDeviceConnectionError
      (fun k => _SshLogOutput cmd ((fun _ => p) k) (some t))
      _SSH_CMD_RETRY_SLEEP b 0 (_SSH_CMD_MAX_RETRY - 1)
      (.CalledProcessError (-9) cmd) hlog rfl

theorem timeout_kill_classified_as_command_failure_witness :
    (0 < 5 ∧ 5 < 10) ∧
    runProcessOutcome ⟨10, 0⟩ (some 5) = ⟨-9, true⟩ ∧
    _SshLogOutput "sleep 60" ⟨10, 0⟩ (some 5) =
      .error (.CalledProcessError (-9) "sleep 60") ∧
    classifyOutcome (runProcessOutcome ⟨10, 0⟩ (some 5)) =
      .CommandFailure (-9) ∧
    ShellCmdWithRetry "sleep 60" (fun _ => ⟨10, 0⟩) (some 5) 2 =
      (.error (.CalledProcessError (-9) "sleep 60"), []) :=
  ⟨⟨by decide, by decide⟩,
   timeout_kill_classified_as_command_failure "sleep 60" ⟨10, 0⟩ 5 2
     (by decide) (by decide)⟩

/-- C3: for commands run through `Run`/`ShellCmdWithRetry`, only
`errors.DeviceConnectionError` (TransportFailure) triggers
re-invocation; a remote command's own nonzero exit propagates
immediately on the first attempt with zero retries (no sleeps), while
four consecutive transport failures exhaust the `_SSH_CMD_MAX_RETRY`
budget and surface the connectivity error. -/
theorem shell_cmd_retry_policy (cmd : String) (procs : Nat → ProcessSpec)
    (timeout : Option Nat) (b : Nat) :
    (∀ e, _SshLogOutput cmd (procs 0) timeout = .error e →
      isDeviceConnectionError e = false →
      ShellCmdWithRetry cmd procs timeout b = (.error e, [])) ∧
    ((∀ k, k < _SSH_CMD_MAX_RETRY → ∃ m,
        _SshLogOutput cmd (procs k) timeout =
          .error (.DeviceConnectionError m)) →
      (∃ m, (ShellCmdWithRetry cmd procs timeout b).1 =
        .error (.DeviceConnectionError m)) ∧
      (ShellCmdWithRetry cmd procs timeout b).2.length + 1 =
        _SSH_CMD_MAX_RETRY) := by
  have heq : ShellCmdWithRetry cmd procs timeout b =
      RetryAux isDeviceConnectionError
        (fun k => _SshLogOutput cmd (procs k) timeout)
        _SSH_CMD_RETRY_SLEEP b 0 (_SSH_CMD_MAX_RETRY - 1) := rfl
  constructor
  · intro e he hne
    rw [heq]
    exact RetryAux_nonretryable _ _ _ _ 0 _ e he hne
  · intro h
    have hall : ∀ j, j ≤ _SSH_CMD_MAX_RETRY - 1 → ∃ e,
        (fun k => _SshLogOutput cmd (procs k) timeout) (0 + j) = .error e ∧
        isDeviceConnectionError e = true := by
      intro j hj
      obtain ⟨m, hm⟩ := h j (by
        simp only [_SSH_CMD_MAX_RETRY] at hj ⊢
        omega)
      exact ⟨.DeviceConnectionError m, by simpa using hm, rfl⟩
    have hres := RetryAux_all_retryable isDeviceConnectionError
      (fun k => _SshLogOutput cmd (procs k) timeout)
      _SSH_CMD_RETRY_SLEEP b (_SSH_CMD_MAX_RETRY - 1) 0 hall
    obtain ⟨m3, hm3⟩ := h (_SSH_CMD_MAX_RETRY - 1)
      (by simp [_SSH_CMD_MAX_RETRY])
    constructor
    · refine ⟨m3, ?_⟩
      rw [heq, hres.1]
      simpa using hm3
    · rw [heq, hres.2]
      simp [_SSH_CMD_MAX_RETRY]

theorem shell_cmd_retry_policy_witness :
    ShellCmdWithRetry "uname -a" (fun _ => ⟨0, 1⟩) none 1 =
      (.error (.CalledProcessError 1 "uname -a"), []) ∧
    (∃ m, (ShellCmdWithRetry "uname -a" (fun _ => ⟨0, 255⟩) none 1).1 =
      .error (.DeviceConnectionError m)) ∧
    (ShellCmdWithRetry "uname -a" (fun _ => ⟨0, 255⟩) none 1).2.length + 1 =
      _SSH_CMD_MAX_RETRY :=
  ⟨(shell_cmd_retry_policy "uname -a" (fun _ => ⟨0, 1⟩) none 1).1
      (.CalledProcessError 1 "uname -a") rfl rfl,
   (shell_cmd_retry_policy "uname -a" (fun _ => ⟨0, 255⟩) none 1).2
      (fun _ _ => ⟨"Failed to send command to instance (uname -a)", rfl⟩)⟩

/-- C8: in every run of the retried SSH operation, the recorded sleeps
form the schedule `sleep[k] = _SSH_CMD_RETRY_SLEEP * backoffFactor^k`
for `k = 0..n-2`; when `backoffFactor ≥ 1` the sleep interval never
decreases across attempts; when it is exactly 1 all sleeps equal the
base sleep; the attempt count (sleeps + 1) never exceeds
`_SSH_CMD_MAX_RETRY`; and the SSH path's base sleep is
`_SSH_CMD_RETRY_SLEEP = 3`. -/
theorem retry_sleep_schedule (cmd : String) (procs : Nat → ProcessSpec)
    (timeout : Option Nat) (b : Nat) :
    (∃ j, j ≤ _SSH_CMD_MAX_RETRY - 1 ∧
      (ShellCmdWithRetry cmd procs timeout b).2 =
        (List.range j).map (fun k => _SSH_CMD_RETRY_SLEEP * b ^ k)) ∧
    (1 ≤ b → List.Chain' (· ≤ ·) (ShellCmdWithRetry cmd procs timeout b).2) ∧
    (ShellCmdWithRetry cmd procs timeout b).2.length + 1 ≤
      _SSH_CMD_MAX_RETRY ∧
    (b = 1 → ∀ x ∈ (ShellCmdWithRetry cmd procs timeout b).2,
      x = _SSH_CMD_RETRY_SLEEP) ∧
    _SSH_CMD_RETRY_SLEEP = 3 := by
  obtain ⟨j, hj, hshape⟩ := RetryAux_sleeps_shape isDeviceConnectionError
    (fun k => _SshLogOutput cmd (procs k) timeout) _SSH_CMD_RETRY_SLEEP b
    (_SSH_CMD_MAX_RETRY - 1) 0
  have heq : (ShellCmdWithRetry cmd procs timeout b).2 =
      (List.range j).map (fun i => _SSH_CMD_RETRY_SLEEP * b ^ i) := by
    simpa using hshape
  refine ⟨⟨j, hj, heq⟩, ?_, ?_, ?_, rfl⟩
  · intro hb
    rw [heq]
    exact chain_le_of_monotone_map_range _ (fun i i' hii' =>
      Nat.mul_le_mul_left _ (Nat.pow_le_pow_right hb hii')) j
  · rw [heq]
    simp only [List.length_map, List.length_range]
    simp only [_SSH_CMD_MAX_RETRY] at hj ⊢
    omega
  · intro hb1 x hx
    rw [heq] at hx
    subst hb1
    simp at hx
    obtain ⟨a, -, ha⟩ := hx
    omega

theorem retry_sleep_schedule_witness :
    (∃ j, j ≤ _SSH_CMD_MAX_RETRY - 1 ∧
      (ShellCmdWithRetry "w" (fun _ => ⟨0, 255⟩) none 1).2 =
        (List.range j).map (fun k => _SSH_CMD_RETRY_SLEEP * 1 ^ k)) ∧
    List.Chain' (· ≤ ·) (ShellCmdWithRetry "w" (fun _ => ⟨0, 255⟩) none 1).2 ∧
    (ShellCmdWithRetry "w" (fun _ => ⟨0, 255⟩) none 1).2.length + 1 ≤
      _SSH_CMD_MAX_RETRY ∧
    (∀ x ∈ (ShellCmdWithRetry "w" (fun _ => ⟨0, 255⟩) none 1).2,
      x = _SSH_CMD_RETRY_SLEEP) :=
  have h := retry_sleep_schedule "w" (fun _ => ⟨0, 255⟩) none 1
  ⟨h.1, h.2.1 (by decide), h.2.2.1, h.2.2.2.1 rfl⟩

/-- C4: `GetBaseCmd` with the shell kind yields the base command
(resolved binary, identity-file and host-key flags, extra tunnel
arguments when present) followed by the `-l user address` suffix; the
file-copy kind yields the same base without that suffix; any other kind
raises `errors.UnknownType`. -/
theorem get_base_cmd_kinds (f : String → String) (s : SshObj) :
    getBaseCmd f s SSH_BIN = .ok (pyJoin " " (baseCmdList f s SSH_BIN
      ++ [_SSH_IDENTITY s.gceUser s.ip])) ∧
    getBaseCmd f s SCP_BIN = .ok (pyJoin " " (baseCmdList f s SCP_BIN)) ∧
    (∀ bin, bin ≠ SSH_BIN → bin ≠ SCP_BIN →
      getBaseCmd f s bin = .error (.UnknownType
        ("Don\x27t support the execute bin " ++ bin ++ "."))) ∧
    (s.extraArgsSshTunnel ≠ "" → ∀ bin, baseCmdList f s bin =
      [f bin, _SSH_CMD s.sshPrivateKeyPath, s.extraArgsSshTunnel]) ∧
    (s.extraArgsSshTunnel = "" → ∀ bin, baseCmdList f s bin =
      [f bin, _SSH_CMD s.sshPrivateKeyPath]) ∧
    _SSH_IDENTITY s.gceUser s.ip = "-l " ++ s.gceUser ++ " " ++ s.ip := by
  refine ⟨getBaseCmd_ssh_eq f s, getBaseCmd_scp_eq f s, ?_, ?_, ?_, rfl⟩
  · intro bin h1 h2
    simp [getBaseCmd, h1, h2]
  · intro h bin
    simp [baseCmdList, h]
  · intro h bin
    simp [baseCmdList, h]

theorem get_base_cmd_kinds_witness :
    getBaseCmd (fun b => "/usr/bin/" ++ b)
        ⟨"1.2.3.4", "vsoc-01", "/key", "-o Port=22"⟩ "rsync" =
      .error (.UnknownType
        ("Don\x27t support the execute bin " ++ "rsync" ++ ".")) ∧
    baseCmdList (fun b => "/usr/bin/" ++ b)
        ⟨"1.2.3.4", "vsoc-01", "/key", "-o Port=22"⟩ "ssh" =
      ["/usr/bin/" ++ "ssh", _SSH_CMD "/key", "-o Port=22"] ∧
    baseCmdList (fun b => "/usr/bin/" ++ b)
        ⟨"1.2.3.4", "vsoc-01", "/key", ""⟩ "scp" =
      ["/usr/bin/" ++ "scp", _SSH_CMD "/key"] :=
  ⟨(get_base_cmd_kinds (fun b => "/usr/bin/" ++ b)
      ⟨"1.2.3.4", "vsoc-01", "/key", "-o Port=22"⟩).2.2.1 "rsync"
      (by decide) (by decide),
   (get_base_cmd_kinds (fun b => "/usr/bin/" ++ b)
      ⟨"1.2.3.4", "vsoc-01", "/key", "-o Port=22"⟩).2.2.2.1
      (by decide) "ssh",
   (get_base_cmd_kinds (fun b => "/usr/bin/" ++ b)
      ⟨"1.2.3.4", "vsoc-01", "/key", ""⟩).2.2.2.2.1 rfl "scp"⟩

/-- C5: `WaitForSsh` probes via `_SshCall` with the same timeout each
attempt; it returns as soon as a probe exits 0 — making exactly `k+1`
underlying calls when the zero-based attempt `k` is the first success —
and raises `errors.DeviceConnectionError` after `max_retry` consecutive
failures (having made exactly `max_retry` calls). -/
theorem wait_for_ssh_attempts (f : String → String) (s : SshObj)
    (procs : Nat → ProcessSpec) (timeout : Option Nat) (maxRetry : Nat) :
    (∀ k, k < maxRetry →
      (∀ j, j < k → (runProcessOutcome (procs j) timeout).returncode ≠ 0) →
      (runProcessOutcome (procs k) timeout).returncode = 0 →
      Ssh.WaitForSsh f s procs timeout maxRetry = (.ok (), k + 1)) ∧
    ((∀ j, j < maxRetry →
        (runProcessOutcome (procs j) timeout).returncode ≠ 0) →
      Ssh.WaitForSsh f s procs timeout maxRetry =
        (.error (.DeviceConnectionError
          "Ssh isn\x27t ready in the remote instance."), maxRetry)) := by
  have hunfold : Ssh.WaitForSsh f s procs timeout maxRetry =
      waitForSshAux (pyJoin " " [pyJoin " " (baseCmdList f s SSH_BIN
        ++ [_SSH_IDENTITY s.gceUser s.ip]), "uptime"]) procs timeout
        0 maxRetry := by
    simp [Ssh.WaitForSsh, getBaseCmd_ssh_eq]
  constructor
  · intro k hk hfail hsucc
    rw [hunfold]
    exact waitForSshAux_ok _ procs timeout k maxRetry 0 hk
      (fun j hj => by simpa using hfail j hj) (by simpa using hsucc)
  · intro hfail
    rw [hunfold]
    exact waitForSshAux_fail _ procs timeout maxRetry 0
      (fun j hj => by simpa using hfail j hj)

theorem wait_for_ssh_attempts_witness :
    Ssh.WaitForSsh (fun b => b) ⟨"10.0.0.2", "u", "/key", ""⟩
      (fun k => if k < 2 then ⟨0, 255⟩ else ⟨0, 0⟩) (some 20) 4 =
      (.ok (), 3) ∧
    Ssh.WaitForSsh (fun b => b) ⟨"10.0.0.2", "u", "/key", ""⟩
      (fun _ => ⟨0, 255⟩) (some 20) 4 =
      (.error (.DeviceConnectionError
        "Ssh isn\x27t ready in the remote instance."), 4) :=
  ⟨(wait_for_ssh_attempts (fun b => b) ⟨"10.0.0.2", "u", "/key", ""⟩
      (fun k => if k < 2 then ⟨0, 255⟩ else ⟨0, 0⟩) (some 20) 4).1 2
      (by decide) (by decide) (by decide),
   (wait_for_ssh_attempts (fun b => b) ⟨"10.0.0.2", "u", "/key", ""⟩
      (fun _ => ⟨0, 255⟩) (some 20) 4).2 (by decide)⟩


/-- C6: the output loop forwards every nonempty line (stripped) to the
console sink when `show_output` is set and to the debug-log sink
otherwise, and terminates exactly at the first read that returns an
empty line while the process has exited — a nonempty line is still
forwarded even if the process has already exited. -/
theorem output_loop_streaming (showOutput : Bool)
    (events : List (String × Option Int)) :
    (outputLoop showOutput events =
      (events.takeWhile continueRead).filterMap (forwardLine showOutput)) ∧
    (∀ l p rest, l ≠ "" →
      outputLoop showOutput ((l, p) :: rest) =
        (lineSink showOutput, l.trim) :: outputLoop showOutput rest) := by
  constructor
  · induction events with
    | nil => simp [outputLoop]
    | cons e rest ih =>
        obtain ⟨l, p⟩ := e
        by_cases hl : l = ""
        · subst hl
          cases hp : p.isSome with
          | true =>
              have h2 : continueRead ("", p) = false := by
                simp [continueRead, hp]
              rw [List.takeWhile_cons, h2]
              simp [outputLoop, hp]
          | false =>
              have h2 : continueRead ("", p) = true := by
                simp [continueRead, hp]
              rw [List.takeWhile_cons, h2]
              simp [outputLoop, hp, List.filterMap_cons, forwardLine, ih]
        · have hl2 : (l == "") = false := beq_eq_false_iff_ne.mpr hl
          have h2 : continueRead (l, p) = true := by
            simp [continueRead, hl2]
          rw [List.takeWhile_cons, h2]
          simp [outputLoop, hl2, List.filterMap_cons, forwardLine, ih]
  · intro l p rest hl
    have hl2 : (l == "") = false := beq_eq_false_iff_ne.mpr hl
    simp [outputLoop, hl2]

theorem output_loop_streaming_witness :
    outputLoop true [("VIRTUAL DEVICE BOOT COMPLETED ", some 0)] =
      (lineSink true, "VIRTUAL DEVICE BOOT COMPLETED ".trim) ::
        outputLoop true [] :=
  (output_loop_streaming true
      [("VIRTUAL DEVICE BOOT COMPLETED ", some 0)]).2
    "VIRTUAL DEVICE BOOT COMPLETED " (some 0) [] (by decide)

/-- C7: the effective address is resolved exactly once in the
constructor (the internal one when `report_internal_ip` is set, else
the external one), and no public operation changes `_ip`, `_gce_user`,
`_ssh_private_key_path` or `_extra_args_ssh_tunnel`: every method's
resulting session state equals the one it received. -/
theorem ssh_session_immutable (ip : IP) (u key e : String) (r : Bool)
    (f : String → String) (s : SshObj) (tc bin src dst : String)
    (procs : Nat → ProcessSpec) (timeout : Option Nat) (n b : Nat) :
    (Ssh.init ip u key e r).ip =
      (if r then ip.internal else ip.external) ∧
    (Ssh.init ip u key e r).gceUser = u ∧
    (Ssh.init ip u key e r).sshPrivateKeyPath = key ∧
    (Ssh.init ip u key e r).extraArgsSshTunnel = e ∧
    (Ssh.RunSt f s tc procs timeout b).2 = s ∧
    (Ssh.GetBaseCmdSt f s bin).2 = s ∧
    (Ssh.WaitForSshSt f s procs timeout n).2 = s ∧
    (Ssh.ScpPushFileSt f s src dst procs b).2 = s ∧
    (Ssh.ScpPullFileSt f s src dst procs b).2 = s :=
  ⟨rfl, rfl, rfl, rfl, rfl, rfl, rfl, rfl, rfl⟩

/-- C9: `ScpPushFile` builds the file-copy command with the local
source first and `user@address:destination` second, `ScpPullFile`
builds it with `user@address:source` first and the local destination
second, and both — like `Run` — execute through the same
`ShellCmdWithRetry` retry path (the scp commands with no timeout). -/
theorem scp_push_pull_retry_path (f : String → String) (s : SshObj)
    (src dst tc : String) (procs : Nat → ProcessSpec)
    (timeout : Option Nat) (b : Nat) :
    ∃ base, getBaseCmd f s SCP_BIN = .ok base ∧
      Ssh.ScpPushFile f s src dst procs b =
        ShellCmdWithRetry (base ++ " " ++ (src ++ " " ++
          (s.gceUser ++ "@" ++ s.ip ++ ":" ++ dst))) procs none b ∧
      Ssh.ScpPullFile f s src dst procs b =
        ShellCmdWithRetry (base ++ " " ++
          ((s.gceUser ++ "@" ++ s.ip ++ ":" ++ src) ++ " " ++ dst))
          procs none b ∧
      (∃ sshBase, getBaseCmd f s SSH_BIN = .ok sshBase ∧
        Ssh.Run f s tc procs timeout b =
          ShellCmdWithRetry (sshBase ++ " " ++ tc) procs timeout b) := by
  refine ⟨pyJoin " " (baseCmdList f s SCP_BIN), getBaseCmd_scp_eq f s,
    ?_, ?_, ?_⟩
  · simp [Ssh.ScpPushFile, getBaseCmd_scp_eq, pyJoin_three]
  · simp [Ssh.ScpPullFile, getBaseCmd_scp_eq, pyJoin_three]
  · exact ⟨_, getBaseCmd_ssh_eq f s, by simp [Ssh.Run, getBaseCmd_ssh_eq]⟩

/-- C10: `GetAvdCreatorClass` returns the unique creator class for each
of the four recognized remote/local instance-type × remote/local
image-source combinations, and every pair outside those four raises
`errors.UnsupportedInstanceImageType`; it never returns `None` and
never falls through silently. -/
theorem avd_creator_dispatch (instanceType imageSource : String) :
    (GetAvdCreatorClass instanceType imageSource =
        .ok .LocalImageRemoteInstance ↔
      instanceType = INSTANCE_TYPE_REMOTE ∧
        imageSource = IMAGE_SRC_LOCAL) ∧
    (GetAvdCreatorClass instanceType imageSource =
        .ok .LocalImageLocalInstance ↔
      instanceType = INSTANCE_TYPE_LOCAL ∧
        imageSource = IMAGE_SRC_LOCAL) ∧
    (GetAvdCreatorClass instanceType imageSource =
        .ok .RemoteImageRemoteInstance ↔
      instanceType = INSTANCE_TYPE_REMOTE ∧
        imageSource = IMAGE_SRC_REMOTE) ∧
    (GetAvdCreatorClass instanceType imageSource =
        .ok .RemoteImageLocalInstance ↔
      instanceType = INSTANCE_TYPE_LOCAL ∧
        imageSource = IMAGE_SRC_REMOTE) ∧
    (¬((instanceType = INSTANCE_TYPE_REMOTE ∨
          instanceType = INSTANCE_TYPE_LOCAL) ∧
        (imageSource = IMAGE_SRC_LOCAL ∨
          imageSource = IMAGE_SRC_REMOTE)) →
      GetAvdCreatorClass instanceType imageSource =
        .error (.UnsupportedInstanceImageType
          ("unsupported creation of instance type: " ++ instanceType ++
            ", image source: " ++ imageSource))) ∧
    ((∃ c, GetAvdCreatorClass instanceType imageSource = .ok c) ∨
      (∃ m, GetAvdCreatorClass instanceType imageSource =
        .error (.UnsupportedInstanceImageType m))) := by
  by_cases h1 : instanceType = INSTANCE_TYPE_REMOTE <;>
    by_cases h2 : instanceType = INSTANCE_TYPE_LOCAL <;>
      by_cases h3 : imageSource = IMAGE_SRC_LOCAL <;>
        by_cases h4 : imageSource = IMAGE_SRC_REMOTE <;>
          simp_all [GetAvdCreatorClass, INSTANCE_TYPE_REMOTE,
            INSTANCE_TYPE_LOCAL, IMAGE_SRC_LOCAL, IMAGE_SRC_REMOTE]

theorem avd_creator_dispatch_witness :
    GetAvdCreatorClass "remote" "local" = .ok .LocalImageRemoteInstance ∧
    GetAvdCreatorClass "local" "local" = .ok .LocalImageLocalInstance ∧
    GetAvdCreatorClass "remote" "remote" =
      .ok .RemoteImageRemoteInstance ∧
    GetAvdCreatorClass "local" "remote" = .ok .RemoteImageLocalInstance ∧
    GetAvdCreatorClass "container" "local" =
      .error (.UnsupportedInstanceImageType
        ("unsupported creation of instance type: " ++ "container" ++
          ", image source: " ++ "local")) :=
  ⟨(avd_creator_dispatch "remote" "local").1.mpr ⟨rfl, rfl⟩,
   (avd_creator_dispatch "local" "local").2.1.mpr ⟨rfl, rfl⟩,
   (avd_creator_dispatch "remote" "remote").2.2.1.mpr ⟨rfl, rfl⟩,
   (avd_creator_dispatch "local" "remote").2.2.2.1.mpr ⟨rfl, rfl⟩,
   (avd_creator_dispatch "container" "local").2.2.2.2.1 (by decide)⟩
